import Mathlib

/-!
Shallow embedding of the smarther-mqtt-bridge core (src/main.rs, src/mqtt.rs,
src/webhook.rs, src/token_watchdog.rs) and proofs about the spec's claims.

External collaborators (the smarther cloud API client, serde, the filesystem,
the MQTT client library, the HTTP framework) are modelled as an explicit
environment record `CloudEnv` of oracles; the repository's own control flow is
translated function by function from the Rust source.
-/

namespace SmartherBridge

/-- Credential record held in `tokens.json` and in the shared `RefCell`
(the smarther crate's `AuthorizationInfo`, used at its interface). -/
structure AuthorizationInfo where
  access_token : String
  refresh_token : String
  expires_on : Nat
deriving DecidableEq, Repr

/-- A module inside a plant (smarther `ModuleDetail`: id and type). -/
structure PlantModule where
  id : String
  module_type : String
deriving DecidableEq, Repr

/-- A managed plant with its modules (smarther `PlantDetail`). -/
structure PlantDetail where
  id : String
  modules : List PlantModule
deriving DecidableEq, Repr

/-- main.rs `CachedTopology`: the ordered list of managed plants. -/
structure CachedTopology where
  plants : List PlantDetail
deriving DecidableEq, Repr

/-- main.rs `BridgeConfiguration` (ports as Nat; no arithmetic is done on them). -/
structure BridgeConfiguration where
  webhook_endpoint : Option String
  mqtt_base_topic : String
  mqtt_broker : String
  mqtt_port : Nat
  mqtt_username : String
  mqtt_password : String
  listen_port : Nat
  listen_host : String
deriving DecidableEq, Repr

/-- The per-field defaults of `BridgeConfiguration` (main.rs impl Default). -/
def default_bridge_configuration : BridgeConfiguration :=
  { webhook_endpoint := none
    mqtt_base_topic := "smarther"
    mqtt_broker := "localhost"
    mqtt_port := 1883
    mqtt_username := "anonymous"
    mqtt_password := ""
    listen_port := 8080
    listen_host := "localhost" }

/-- smarther `SubscriptionInfo`: id of the cloud-side webhook registration,
the plant it belongs to (optional in the wire format; webhook.rs sets it
after registering), and the delivery endpoint. -/
structure SubscriptionInfo where
  subscription_id : String
  plant_id : Option String
  endpoint_url : String
deriving DecidableEq, Repr

/-- smarther `SetStatusRequest` as decoded from a command payload (interface
model; the bridge never inspects its fields, it only forwards them). -/
structure SetStatusRequest where
  function : String
  mode : String
  set_point : Option String
  activation_time : Option String
deriving DecidableEq, Repr

/-- A committed durable write performed by the bridge. The auth snapshot write
exists in the source (main.rs line 149); a subscriptions-snapshot write is
included as a possible action so that its absence from every trace is a
statement about the code, not about the action vocabulary. -/
inductive FileWrite
  | authFile (content : AuthorizationInfo)
  | subscriptionsFile (subs : List SubscriptionInfo)
deriving DecidableEq, Repr

/-- Environment of external effects: each field is the observable behavior of
one external call the bridge makes (smarther crate, serde, std::fs). -/
structure CloudEnv where
  refreshNeeded : AuthorizationInfo → Bool
  refreshToken : AuthorizationInfo → Option AuthorizationInfo
  writeFileOk : Bool
  withAuthorizationOk : AuthorizationInfo → Bool
  getWebhooks : Option (List SubscriptionInfo)
  registerWebhook : String → String → Option SubscriptionInfo
  unregisterWebhookOk : String → String → Bool
  parseSetStatus : String → Option SetStatusRequest
  setDeviceStatusOk : String → String → Bool

/-- Outcome of the free function `refresh_token_if_needed` (main.rs 145-154):
the returned credential or error, how many cloud refresh calls were made, and
the committed auth-file writes. -/
structure RefreshResult where
  result : Except String AuthorizationInfo
  refreshCalls : Nat
  fileWrites : List FileWrite

/-- main.rs 145-154. When a refresh is needed it calls the cloud refresh
endpoint, then serializes `auth_info` — the pre-refresh value, as the source
does on line 148 — writes it to the auth file, and returns the refreshed
credential; otherwise it returns the input untouched with no I/O. -/
def refresh_token_if_needed (env : CloudEnv) (auth_info : AuthorizationInfo) :
    RefreshResult :=
  if env.refreshNeeded auth_info then
    match env.refreshToken auth_info with
    | none => ⟨Except.error "refresh_token failed", 1, []⟩
    | some refreshed_auth_info =>
        if env.writeFileOk then
          ⟨Except.ok refreshed_auth_info, 1, [FileWrite.authFile auth_info]⟩
        else
          ⟨Except.error "write failed", 1, []⟩
  else
    ⟨Except.ok auth_info, 0, []⟩

/-- Outcome of `Context::refresh_token_if_needed` (main.rs 59-66): success
flag, the shared in-memory credential afterwards, and the effects. -/
structure CtxRefreshResult where
  ok : Bool
  auth_mem : AuthorizationInfo
  fileWrites : List FileWrite
  refreshCalls : Nat

/-- main.rs 59-66: clones the shared credential, runs the free refresh
function, and on success replaces the shared credential with the returned
value (and signals the watchdog reset channel, which carries no data). -/
def Context.refresh_token_if_needed (env : CloudEnv) (mem : AuthorizationInfo) :
    CtxRefreshResult :=
  let r := SmartherBridge.refresh_token_if_needed env mem
  match r.result with
  | Except.error _ => ⟨false, mem, r.fileWrites, r.refreshCalls⟩
  | Except.ok refreshed => ⟨true, refreshed, r.fileWrites, r.refreshCalls⟩

/-- The four long-lived tasks `run` joins (main.rs 246-251). -/
inductive RunTask
  | interruptHandler
  | webhookHandler
  | mqttHandler
  | tokenRefresher
deriving DecidableEq, Repr

/-- main.rs 220-254: the startup phase of `run`. `authLoad` and `topoLoad`
are the results of reading and parsing the two snapshot files; `configLoad`
is `none` when the configuration file is unreadable (defaults apply) and
`some r` when it was read, `r` being the parse result. Any error propagates
out of `run` via the question-mark operator; only on success are the four
tasks started. -/
def run (authLoad : Except String AuthorizationInfo)
    (topoLoad : Except String CachedTopology)
    (configLoad : Option (Except String BridgeConfiguration)) :
    Except String (List RunTask) :=
  match authLoad with
  | Except.error e => Except.error e
  | Except.ok _ =>
    match topoLoad with
    | Except.error e => Except.error e
    | Except.ok _ =>
      match (match configLoad with
             | none => Except.ok default_bridge_configuration
             | some c => c : Except String BridgeConfiguration) with
      | Except.error e => Except.error e
      | Except.ok _ =>
        Except.ok [RunTask.interruptHandler, RunTask.webhookHandler,
                   RunTask.mqttHandler, RunTask.tokenRefresher]

/-- The tasks actually started by a completed `run` startup (none when the
startup phase returned an error, since main then exits). -/
def startedTasks (r : Except String (List RunTask)) : List RunTask :=
  match r with
  | Except.error _ => []
  | Except.ok ts => ts

/- Concrete credentials used by several concrete evaluations below. -/

/-- A stale credential whose remaining lifetime is below the threshold in the
environments that declare it so. -/
def auth_old : AuthorizationInfo :=
  ⟨"old-access-token", "old-refresh-token", 100⟩

/-- The fresh credential the modelled cloud refresh endpoint returns. -/
def auth_new : AuthorizationInfo :=
  ⟨"new-access-token", "new-refresh-token", 9000⟩

/-- Environment for the C1 evaluation: the credential is below threshold,
the cloud refresh succeeds with `auth_new`, the file write succeeds. -/
def env_c1 : CloudEnv :=
  { refreshNeeded := fun _ => true
    refreshToken := fun _ => some auth_new
    writeFileOk := true
    withAuthorizationOk := fun _ => true
    getWebhooks := some []
    registerWebhook := fun _ _ => none
    unregisterWebhookOk := fun _ _ => true
    parseSetStatus := fun _ => none
    setDeviceStatusOk := fun _ _ => true }

/-- An environment in which no credential ever needs a refresh. -/
def env_fresh : CloudEnv :=
  { env_c1 with refreshNeeded := fun _ => false, refreshToken := fun _ => none }

/-- A device status-change call issued to the cloud
(`client.set_device_status(plant_id, module_id, request)`, mqtt.rs line 48). -/
structure ApiCall where
  plant_id : String
  module_id : String
  request : SetStatusRequest
deriving DecidableEq, Repr

/-- Outcome of `try_update_plant_status` (mqtt.rs 33-51): the function's
result, the device-status API calls issued, the shared credential afterwards
and the durable writes done by the embedded token refresh. -/
structure TryUpdateResult where
  result : Except String Unit
  calls : List ApiCall
  mem : AuthorizationInfo
  fileWrites : List FileWrite
deriving Repr

/-- Helper for `splitSlash`: walk the characters, cutting at each slash. -/
def splitSlashAux : List Char → List Char → List String
  | [], acc => [String.mk acc.reverse]
  | c :: cs, acc =>
    if c = '/' then String.mk acc.reverse :: splitSlashAux cs []
    else splitSlashAux cs (c :: acc)

/-- Rust's `str::split('/')` collected into a vector (mqtt.rs line 34): every
slash is a cut point and empty segments are kept. -/
def splitSlash (s : String) : List String := splitSlashAux s.toList []

/-- The topic test of mqtt.rs 34-37: split on slashes, require exactly four
segments whose fourth is "set_status", and extract segment two as plant id and
segment three as module id. The first segment is matched by a wildcard — the
source never compares it with the configured base topic — and no id is
checked against the cached topology. -/
def commandRoute (topic : String) : Option (String × String) :=
  match splitSlash topic with
  | [_first, plant_id, module_id, action] =>
    if action = "set_status" then some (plant_id, module_id) else none
  | _ => none

/-- mqtt.rs 33-51: on a matching topic, decode the payload, refresh the
credential if needed, build an authorized client, and issue the status-change
call; any failure returns an error after the steps already taken. A
non-matching topic is ignored successfully. -/
def try_update_plant_status (env : CloudEnv) (mem : AuthorizationInfo)
    (topic payload : String) : TryUpdateResult :=
  match commandRoute topic with
  | none => ⟨Except.ok (), [], mem, []⟩
  | some (plant_id, module_id) =>
    match env.parseSetStatus payload with
    | none => ⟨Except.error "malformed payload", [], mem, []⟩
    | some req =>
      let r := Context.refresh_token_if_needed env mem
      if r.ok = false then
        ⟨Except.error "refresh failed", [], r.auth_mem, r.fileWrites⟩
      else if env.withAuthorizationOk r.auth_mem = false then
        ⟨Except.error "auth failed", [], r.auth_mem, r.fileWrites⟩
      else
        ⟨(if env.setDeviceStatusOk plant_id module_id then Except.ok ()
          else Except.error "set_device_status failed"),
         [⟨plant_id, module_id, req⟩], r.auth_mem, r.fileWrites⟩

/-- One result of polling the MQTT event loop (mqtt.rs 55, 63): an inbound
publish packet, some other packet, or a connection error. -/
inductive MqttPollResult
  | publishEvent (topic : String) (payload : String)
  | otherEvent
  | pollError (msg : String)
deriving DecidableEq, Repr

/-- State carried by the command loop: calls issued so far and the shared
credential. -/
structure CmdRun where
  calls : List ApiCall
  mem : AuthorizationInfo
deriving Repr

/-- mqtt.rs 53-72 over a finite script of poll results: each publish packet is
handed to `try_update_plant_status`, whose error (if any) is logged and
dropped; a poll error makes the loop sleep five seconds and poll again, so
each later event is still processed. -/
def mqtt_command_handler (env : CloudEnv) :
    AuthorizationInfo → List MqttPollResult → CmdRun
  | mem, [] => ⟨[], mem⟩
  | mem, MqttPollResult.publishEvent t p :: rest =>
    let r := try_update_plant_status env mem t p
    let k := mqtt_command_handler env r.mem rest
    ⟨r.calls ++ k.calls, k.mem⟩
  | mem, MqttPollResult.otherEvent :: rest => mqtt_command_handler env mem rest
  | mem, MqttPollResult.pollError _ :: rest => mqtt_command_handler env mem rest

/-- Device-status calls the command loop issues over a script of events. -/
def cmdCalls (env : CloudEnv) (mem : AuthorizationInfo)
    (events : List MqttPollResult) : List ApiCall :=
  (mqtt_command_handler env mem events).calls

/-- Shared credential after the command loop processed a script of events. -/
def cmdMem (env : CloudEnv) (mem : AuthorizationInfo)
    (events : List MqttPollResult) : AuthorizationInfo :=
  (mqtt_command_handler env mem events).mem

/-- Environment for the concrete MQTT evaluations: no refresh ever needed,
the payload "boost" decodes to a request, everything else succeeds. -/
def env_mqtt : CloudEnv :=
  { refreshNeeded := fun _ => false
    refreshToken := fun _ => none
    writeFileOk := true
    withAuthorizationOk := fun _ => true
    getWebhooks := some []
    registerWebhook := fun _ _ => none
    unregisterWebhookOk := fun _ _ => true
    parseSetStatus := fun s =>
      if s = "boost" then some ⟨"boost", "automatic", none, none⟩ else none
    setDeviceStatusOk := fun _ _ => true }

/-- Observable steps of the webhook subscription manager. `fileWriteAct` wraps
the durable writes done by the embedded token refresh; `cancelTokenCall` is
firing the shared cancellation token (webhook.rs line 151 does it inside
`http_server`; the subscription path never does, which the theorems below
state rather than assume). -/
inductive WebhookAction
  | refreshAttempt
  | fileWriteAct (w : FileWrite)
  | getWebhooksCall
  | registerCall (plant_id : String) (endpoint_url : String)
  | unregisterCall (plant_id : String) (subscription_id : String)
  | cancelTokenCall
deriving DecidableEq, Repr

/-- The unregistration calls issued by the loop of webhook.rs 112-120: one
`unregister_webhook(plant_id, subscription_id)` per subscription that carries
a plant id. -/
def unregActions (subs : List SubscriptionInfo) : List WebhookAction :=
  subs.filterMap (fun s =>
    s.plant_id.map (fun p => WebhookAction.unregisterCall p s.subscription_id))

/-- The subscriptions webhook.rs 112-120 keeps in `remaining_subscriptions`:
those with a plant id whose unregistration call failed. -/
def unregRemaining (env : CloudEnv) (subs : List SubscriptionInfo) :
    List SubscriptionInfo :=
  subs.filter (fun s =>
    match s.plant_id with
    | some p => !(env.unregisterWebhookOk p s.subscription_id)
    | none => false)

/-- Outcome of `clear_active_subscriptions` (webhook.rs 85-123). -/
structure ClearResult where
  remaining : List SubscriptionInfo
  actions : List WebhookAction
  mem : AuthorizationInfo
deriving Repr

/-- webhook.rs 85-123: refresh the token, build an authorized client (any
failure returns an empty list), take the given subscriptions or query the
cloud (a query failure yields an empty list), then try to unregister each
subscription that has a plant id, collecting the failures. The single source
loop both issues calls and collects failures; here the two projections are
the equivalent `unregActions` and `unregRemaining`. -/
def clear_active_subscriptions (env : CloudEnv) (mem : AuthorizationInfo)
    (active : Option (List SubscriptionInfo)) : ClearResult :=
  let r := Context.refresh_token_if_needed env mem
  let refreshActs := WebhookAction.refreshAttempt ::
    r.fileWrites.map WebhookAction.fileWriteAct
  if r.ok = false then ⟨[], refreshActs, r.auth_mem⟩
  else if env.withAuthorizationOk r.auth_mem = false then
    ⟨[], refreshActs, r.auth_mem⟩
  else
    match active with
    | some subs =>
      ⟨unregRemaining env subs, refreshActs ++ unregActions subs, r.auth_mem⟩
    | none =>
      match env.getWebhooks with
      | some subs =>
        ⟨unregRemaining env subs,
         refreshActs ++ WebhookAction.getWebhooksCall :: unregActions subs,
         r.auth_mem⟩
      | none => ⟨[], refreshActs ++ [WebhookAction.getWebhooksCall], r.auth_mem⟩

/-- Accumulated state of the registration loop of webhook.rs 55-67. -/
structure RegResult where
  active : List SubscriptionInfo
  actions : List WebhookAction
deriving Repr

/-- webhook.rs 55-67: for each managed plant, register a webhook pointed at
`endpoint/smarther_bridge/plant_id`; on success push the subscription (with
its plant id filled in) onto the accumulator, on failure log and continue
with the next plant. -/
def register_all (env : CloudEnv) (endpoint : String)
    (acc : List SubscriptionInfo) : List String → RegResult
  | [] => ⟨acc, []⟩
  | plant_id :: rest =>
    let endpoint_url := endpoint ++ "/smarther_bridge/" ++ plant_id
    match env.registerWebhook plant_id endpoint_url with
    | none =>
      let r := register_all env endpoint acc rest
      ⟨r.active, WebhookAction.registerCall plant_id endpoint_url :: r.actions⟩
    | some s =>
      let r := register_all env endpoint
        (acc ++ [{ s with plant_id := some plant_id }]) rest
      ⟨r.active, WebhookAction.registerCall plant_id endpoint_url :: r.actions⟩

/-- How `handle_subscriptions` (webhook.rs 39-83) ends its registration
phase. -/
inductive SubsResult
  | refreshFailed
  | authFailed
  | noSubscriptions
  | completed (active : List SubscriptionInfo)
      (remaining : List SubscriptionInfo)
deriving DecidableEq, Repr

/-- A full run of `handle_subscriptions`: its phase outcome, the actions of
the startup clearing pass plus refresh plus registration (`preActions`), the
actions performed after the active-set check — the final unregistration pass
triggered by cancellation, empty on every early return (`postActions`) — and
the shared credential afterwards. -/
structure SubsRun where
  result : SubsResult
  preActions : List WebhookAction
  postActions : List WebhookAction
  mem : AuthorizationInfo
deriving Repr

/-- webhook.rs 39-83: clear whatever subscriptions the cloud reports (keeping
the failures as the seed of the active set), refresh the token and build an
authorized client (failures abort the subscription task), register one
webhook per managed plant, give up if the active set ends up empty, and
otherwise wait for cancellation and unregister the whole active set. -/
def handle_subscriptions (env : CloudEnv) (mem : AuthorizationInfo)
    (plants : List String) (endpoint : String) : SubsRun :=
  let c0 := clear_active_subscriptions env mem none
  let r := Context.refresh_token_if_needed env c0.mem
  let refreshActs := WebhookAction.refreshAttempt ::
    r.fileWrites.map WebhookAction.fileWriteAct
  if r.ok = false then
    ⟨SubsResult.refreshFailed, c0.actions ++ refreshActs, [], r.auth_mem⟩
  else if env.withAuthorizationOk r.auth_mem = false then
    ⟨SubsResult.authFailed, c0.actions ++ refreshActs, [], r.auth_mem⟩
  else
    let reg := register_all env endpoint c0.remaining plants
    if reg.active.isEmpty then
      ⟨SubsResult.noSubscriptions, c0.actions ++ refreshActs ++ reg.actions,
       [], r.auth_mem⟩
    else
      let cf := clear_active_subscriptions env r.auth_mem (some reg.active)
      ⟨SubsResult.completed reg.active cf.remaining,
       c0.actions ++ refreshActs ++ reg.actions, cf.actions, cf.mem⟩

/-- Every action of a `handle_subscriptions` run, in order. -/
def SubsRun.trace (r : SubsRun) : List WebhookAction :=
  r.preActions ++ r.postActions

/-- Size of the active set when the run reached the completed phase. -/
def SubsRun.activeCount (r : SubsRun) : Nat :=
  match r.result with
  | SubsResult.completed active _ => active.length
  | _ => 0

/-- Whether the run reached the completed (wait-then-unregister) phase. -/
def SubsRun.isCompleted (r : SubsRun) : Bool :=
  match r.result with
  | SubsResult.completed _ _ => true
  | _ => false

/-- Recognizes an unregistration call among webhook actions. -/
def isUnregCall : WebhookAction → Bool
  | WebhookAction.unregisterCall _ _ => true
  | _ => false

/-- Unregistration calls issued after cancellation (the final clearing pass). -/
def SubsRun.unregCount (r : SubsRun) : Nat :=
  (r.postActions.filter isUnregCall).length

/-- Recognizes a durable write of a subscriptions snapshot. -/
def writesSubsFile : WebhookAction → Bool
  | WebhookAction.fileWriteAct (FileWrite.subscriptionsFile _) => true
  | _ => false

/-- Recognizes a durable write of the auth snapshot. -/
def writesAuthFile : WebhookAction → Bool
  | WebhookAction.fileWriteAct (FileWrite.authFile _) => true
  | _ => false

/-- Recognizes the firing of the shared cancellation token. -/
def isCancelAction : WebhookAction → Bool
  | WebhookAction.cancelTokenCall => true
  | _ => false

/-- Actions the subscription path can actually emit: anything except a
subscriptions-snapshot write and a cancellation firing. -/
def benignAction : WebhookAction → Bool
  | WebhookAction.fileWriteAct (FileWrite.subscriptionsFile _) => false
  | WebhookAction.cancelTokenCall => false
  | _ => true

/-- The subscriptions that end up registered by the loop of webhook.rs 55-67:
one per plant whose registration call succeeds, with the plant id filled in. -/
def registeredSubs (env : CloudEnv) (endpoint : String)
    (plants : List String) : List SubscriptionInfo :=
  plants.filterMap (fun plant_id =>
    (env.registerWebhook plant_id (endpoint ++ "/smarther_bridge/" ++ plant_id)).map
      (fun s => { s with plant_id := some plant_id }))

/-- Number of plants whose webhook registration succeeds (the claim's K). -/
def c5K (env : CloudEnv) (endpoint : String) (plants : List String) : Nat :=
  (registeredSubs env endpoint plants).length

/-- Status of the HTTP ingress listener task (webhook.rs 125-153): it never
starts serving when the bind fails, it stops when the cancellation token has
fired, and otherwise it keeps serving. -/
inductive ServerStatus
  | notStarted
  | running
  | stopped
deriving DecidableEq, Repr

/-- webhook.rs 139-152: the listener's state as a function of whether the
bind succeeded and whether cancellation has fired. -/
def http_server_status (bindOk cancelled : Bool) : ServerStatus :=
  if bindOk = false then ServerStatus.notStarted
  else if cancelled then ServerStatus.stopped
  else ServerStatus.running

/-- Outcome of `webhook_handler` (webhook.rs 26-37). -/
inductive WebhookHandlerOutcome
  | skipped
  | ran (subs : SubsRun) (server : ServerStatus)
deriving Repr

/-- webhook.rs 26-37: a no-op when no webhook endpoint is configured,
otherwise the join of the subscription manager and the HTTP listener. -/
def webhook_handler (env : CloudEnv) (cfg : BridgeConfiguration)
    (mem : AuthorizationInfo) (topology : CachedTopology)
    (bindOk cancelled : Bool) : WebhookHandlerOutcome :=
  match cfg.webhook_endpoint with
  | none => WebhookHandlerOutcome.skipped
  | some endpoint =>
    WebhookHandlerOutcome.ran
      (handle_subscriptions env mem (topology.plants.map PlantDetail.id) endpoint)
      (http_server_status bindOk cancelled)

/-- Environment for the C4 counterexample: refreshes are needed and succeed
(so auth-file writes do appear in the trace) and the single plant's webhook
registration succeeds. -/
def env_c4 : CloudEnv :=
  { env_c1 with
      registerWebhook := fun p url => some ⟨"sub-" ++ p, none, url⟩ }

/-- Environment for the C5 counterexample: the cloud reports one pre-existing
webhook whose unregistration fails (so the startup clearing pass leaves it in
the seed of the active set) and the one managed plant's registration
succeeds. -/
def env_c5x : CloudEnv :=
  { env_fresh with
      getWebhooks := some [⟨"sub0", some "PX", "https://old.example/ep"⟩]
      registerWebhook := fun p url => some ⟨"sub-" ++ p, none, url⟩
      unregisterWebhookOk := fun _ _ => false }

/-- Environment for the C5 witness: clean cloud state and one successful
registration. -/
def env_c5w : CloudEnv :=
  { env_fresh with
      registerWebhook := fun p url => some ⟨"sub-" ++ p, none, url⟩ }

/-- A sample with its timestamp (smarther `TimedMeasurement`, interface
model). -/
structure TimedMeasurement where
  value : String
  time : String
deriving DecidableEq, Repr

/-- A plain sample (smarther `Measurement`, interface model). -/
structure Measurement where
  value : String
deriving DecidableEq, Repr

/-- A measuring instrument exposing its latest sample (the smarther crate's
`last_measurement()` accessor, modelled at its interface). -/
structure MeasurementInstrument where
  last : Option TimedMeasurement
deriving DecidableEq, Repr

/-- Interface model of smarther's `last_measurement()`. -/
def MeasurementInstrument.last_measurement (m : MeasurementInstrument) :
    Option TimedMeasurement := m.last

/-- The module reference inside a status event's sender block. -/
structure ModuleRef where
  id : String
deriving DecidableEq, Repr

/-- The plant reference inside a status event's sender block: the plant id
and the module the status belongs to. -/
structure PlantRef where
  id : String
  module : ModuleRef
deriving DecidableEq, Repr

/-- The sender block of a thermostat status (smarther `Sender`). -/
structure SenderDetails where
  plant : Option PlantRef
deriving DecidableEq, Repr

/-- A thermostat status carried by a webhook event (smarther
`ThermostatStatus`, timestamps modelled as their rfc3339 strings). -/
structure ThermostatStatus where
  sender : Option SenderDetails
  thermometer : Option MeasurementInstrument
  hygrometer : Option MeasurementInstrument
  set_point : Option Measurement
  mode : String
  function : String
  time : String
  activation_time : Option String
deriving DecidableEq, Repr

/-- mqtt.rs 74-83: the JSON summary published per thermostat status. -/
structure MeasurementSummary where
  temperature : Option TimedMeasurement
  humidity : Option TimedMeasurement
  set_point : Option Measurement
  mode : String
  function : String
  time : String
  activation_time : Option String
deriving DecidableEq, Repr

/-- The summary mqtt.rs 92-102 builds from a thermostat status. -/
def summaryOf (status : ThermostatStatus) : MeasurementSummary :=
  { temperature := status.thermometer.bind MeasurementInstrument.last_measurement
    humidity := status.hygrometer.bind MeasurementInstrument.last_measurement
    set_point := status.set_point
    mode := status.mode
    function := status.function
    time := status.time
    activation_time := status.activation_time }

/-- An MQTT publish issued by the status-publish loop: its topic and payload
summary (QoS is at-least-once and retain false for every publish). -/
structure PublishRecord where
  topic : String
  summary : MeasurementSummary
deriving DecidableEq, Repr

/-- Outcome of `try_parse_and_publish_status` (mqtt.rs 85-106). -/
structure PubResult where
  result : Except String Unit
  published : List PublishRecord
deriving Repr

/-- mqtt.rs 85-106: a status without sender or plant details is a hard
per-item failure with no publish; otherwise one publish is issued to
base-topic slash sender-plant-id slash sender-module-id slash "status" with
the built summary. -/
def try_parse_and_publish_status (base_topic : String)
    (status : ThermostatStatus) : PubResult :=
  match status.sender with
  | none => ⟨Except.error "No sender details found", []⟩
  | some sender_details =>
    match sender_details.plant with
    | none => ⟨Except.error "No plant details found", []⟩
    | some plant_details =>
      let device_status_topic := base_topic ++ "/" ++ plant_details.id
        ++ "/" ++ plant_details.module.id ++ "/status"
      ⟨Except.ok (), [⟨device_status_topic, summaryOf status⟩]⟩

/-- smarther `ModuleStatus`: the payload of one webhook push, carrying a list
of thermostat statuses. -/
structure ModuleStatus where
  chronothermostats : List ThermostatStatus
deriving DecidableEq, Repr

/-- mqtt.rs 108-116 over a finite script of channel deliveries: for each
received update, each carried thermostat status is handed to
`try_parse_and_publish_status`; a per-item error is logged and the loop
continues. Returns every publish issued. -/
def mqtt_status_change_handler (base_topic : String)
    (updates : List ModuleStatus) : List PublishRecord :=
  updates.flatMap (fun u =>
    u.chronothermostats.flatMap
      (fun s => (try_parse_and_publish_status base_topic s).published))

/-- The HTTP ingress handler's observable outcome (webhook.rs 9-24): actix
maps the returned static string to a 200 response in both branches; the
payload is forwarded on the status-update channel only for a managed plant
with the channel alive, and a send failure is only logged. -/
structure ProcessResult where
  status : Nat
  body : String
  forwarded : List ModuleStatus
  loggedSendFailure : Bool
deriving DecidableEq, Repr

/-- webhook.rs 9-24: the handler of POST smarther_bridge slash plant-id. -/
def process (active_plants : List String) (plant_id : String)
    (payload : ModuleStatus) (sendOk : Bool) : ProcessResult :=
  if (active_plants.any (fun sub => sub == plant_id)) = false then
    ⟨200, "Plant not active", [], false⟩
  else if sendOk then
    ⟨200, "OK", [payload], false⟩
  else
    ⟨200, "OK", [], true⟩

/-- End-to-end inbound path: an HTTP push for `plant_id` goes through
`process`; whatever it forwarded is consumed by the status-publish loop. -/
def deliver_status_event (active_plants : List String)
    (base_topic plant_id : String) (payload : ModuleStatus)
    (sendOk : Bool) : List PublishRecord :=
  mqtt_status_change_handler base_topic
    (process active_plants plant_id payload sendOk).forwarded

/-- A concrete status event for plant "plantA", module "modA". -/
def status_event_a : ModuleStatus :=
  ⟨[⟨some ⟨some ⟨"plantA", ⟨"modA"⟩⟩⟩, none, none, none,
     "automatic", "heating", "2024-01-01T00:00:00Z", none⟩]⟩

/-- C1: for a credential below the refresh threshold, a successful
`Context::refresh_token_if_needed` replaces the shared in-memory credential
with the newly refreshed one, but the durable auth-file snapshot receives the
stale pre-refresh credential: main.rs line 148 serializes `auth_info` instead
of `refreshed_auth_info`, so the claim that both copies equal the refreshed
credential fails on the code. -/
theorem c1_stale_snapshot_write :
    (Context.refresh_token_if_needed env_c1 auth_old).ok = true
    ∧ (Context.refresh_token_if_needed env_c1 auth_old).auth_mem = auth_new
    ∧ (Context.refresh_token_if_needed env_c1 auth_old).fileWrites
        = [FileWrite.authFile auth_old]
    ∧ auth_old ≠ auth_new := by
  refine ⟨rfl, rfl, rfl, ?_⟩
  decide

/-- C8: when the credential's remaining lifetime is at or above the refresh
threshold (`is_refresh_needed` is false), `refresh_token_if_needed` makes no
network call, performs no file write, and returns its input unchanged. -/
theorem c8_fresh_is_identity (env : CloudEnv) (a : AuthorizationInfo)
    (h : env.refreshNeeded a = false) :
    refresh_token_if_needed env a = ⟨Except.ok a, 0, []⟩ := by
  simp [refresh_token_if_needed, h]

/-- Witness for C8 at a concrete fresh credential. -/
theorem c8_fresh_is_identity_witness :
    env_fresh.refreshNeeded auth_old = false
    ∧ refresh_token_if_needed env_fresh auth_old = ⟨Except.ok auth_old, 0, []⟩ :=
  ⟨rfl, c8_fresh_is_identity env_fresh auth_old rfl⟩

/-- C2 counterexample: when the authorization snapshot cannot be read at the
start of `run`, the error propagates out of `run` and no task at all is
started — the MQTT bridge, webhook manager and token refresher do not keep
running, contrary to the claim. -/
theorem c2_snapshot_error_stops_everything :
    startedTasks
      (run (Except.error "cannot read tokens.json") (Except.ok ⟨[]⟩) none)
      = [] := rfl

/-- C2 amended: a required snapshot file (authorization or topology) that
cannot be read when the run engine starts aborts the entire run — the error
propagates out of `run` and no subsystem task is started; only a failure
inside an already-started subsystem, such as the HTTP listener failing to
bind, is contained to that subsystem while the run keeps all four tasks. -/
theorem c2_amended_snapshot_errors_are_fatal (e : String)
    (tl : Except String CachedTopology) (a : AuthorizationInfo)
    (cfg : Option (Except String BridgeConfiguration)) :
    startedTasks (run (Except.error e) tl cfg) = []
    ∧ startedTasks (run (Except.ok a) (Except.error e) cfg) = []
    ∧ run (Except.ok a) (Except.ok ⟨[]⟩) none
        = Except.ok [RunTask.interruptHandler, RunTask.webhookHandler,
                     RunTask.mqttHandler, RunTask.tokenRefresher] :=
  ⟨rfl, rfl, rfl⟩

/-- Witness for the amended C2 at concrete inputs. -/
theorem c2_amended_snapshot_errors_are_fatal_witness :
    startedTasks (run (Except.error "gone") (Except.ok ⟨[]⟩) none) = []
    ∧ startedTasks (run (Except.ok auth_old) (Except.error "gone") none) = []
    ∧ run (Except.ok auth_old) (Except.ok ⟨[]⟩) none
        = Except.ok [RunTask.interruptHandler, RunTask.webhookHandler,
                     RunTask.mqttHandler, RunTask.tokenRefresher] :=
  c2_amended_snapshot_errors_are_fatal "gone" (Except.ok ⟨[]⟩) auth_old none

theorem commandRoute_of_shape (topic b plant module : String)
    (ht : splitSlash topic = [b, plant, module, "set_status"]) :
    commandRoute topic = some (plant, module) := by
  unfold commandRoute
  rw [ht]
  rfl

theorem try_update_calls_of_shape (env : CloudEnv) (mem : AuthorizationInfo)
    (topic payload b plant module : String)
    (ht : splitSlash topic = [b, plant, module, "set_status"])
    (hr : (Context.refresh_token_if_needed env mem).ok = true)
    (ha : env.withAuthorizationOk
            (Context.refresh_token_if_needed env mem).auth_mem = true) :
    (try_update_plant_status env mem topic payload).calls =
      match env.parseSetStatus payload with
      | some req => [⟨plant, module, req⟩]
      | none => [] := by
  unfold try_update_plant_status
  rw [commandRoute_of_shape topic b plant module ht]
  cases hp : env.parseSetStatus payload with
  | none => rfl
  | some req => simp [hr, ha]

theorem try_update_calls_mem_irrelevant (env : CloudEnv)
    (hr : ∀ a, (Context.refresh_token_if_needed env a).ok = true)
    (ha : ∀ a, env.withAuthorizationOk a = true)
    (mem mem' : AuthorizationInfo) (t p : String) :
    (try_update_plant_status env mem t p).calls
      = (try_update_plant_status env mem' t p).calls := by
  unfold try_update_plant_status
  cases commandRoute t with
  | none => rfl
  | some pm =>
    cases pm with
    | mk plant module =>
      cases env.parseSetStatus p with
      | none => rfl
      | some req => simp [hr, ha]

theorem cmdCalls_append (env : CloudEnv) (es₁ es₂ : List MqttPollResult)
    (mem : AuthorizationInfo) :
    cmdCalls env mem (es₁ ++ es₂)
      = cmdCalls env mem es₁ ++ cmdCalls env (cmdMem env mem es₁) es₂ := by
  induction es₁ generalizing mem with
  | nil => simp [cmdCalls, cmdMem, mqtt_command_handler]
  | cons e rest ih =>
    cases e with
    | publishEvent t p =>
      simp [cmdCalls, cmdMem, mqtt_command_handler] at ih ⊢
      simp [ih]
    | otherEvent =>
      simp [cmdCalls, cmdMem, mqtt_command_handler] at ih ⊢
      simp [ih]
    | pollError m =>
      simp [cmdCalls, cmdMem, mqtt_command_handler] at ih ⊢
      simp [ih]

theorem cmdCalls_mem_irrelevant (env : CloudEnv)
    (hr : ∀ a, (Context.refresh_token_if_needed env a).ok = true)
    (ha : ∀ a, env.withAuthorizationOk a = true)
    (es : List MqttPollResult) (mem mem' : AuthorizationInfo) :
    cmdCalls env mem es = cmdCalls env mem' es := by
  induction es generalizing mem mem' with
  | nil => rfl
  | cons e rest ih =>
    cases e with
    | publishEvent t p =>
      simp only [cmdCalls, mqtt_command_handler]
      rw [try_update_calls_mem_irrelevant env hr ha mem mem' t p]
      have := ih (try_update_plant_status env mem t p).mem
        (try_update_plant_status env mem' t p).mem
      simpa [cmdCalls] using congrArg
        (fun l => (try_update_plant_status env mem' t p).calls ++ l) this
    | otherEvent => exact ih mem mem'
    | pollError m => exact ih mem mem'

/-- C10: the command-topic match never consults the configured base topic nor
the cached topology: for any topic of exactly four slash-separated segments
whose fourth is "set_status" — whatever the first segment is — and a payload
that decodes to a status-change request, `try_update_plant_status` issues
exactly the one device-status call whose plant id is segment two and whose
module id is segment three (the model's `commandRoute` and
`try_update_plant_status`, like the source, take no base topic and no
topology at all). -/
theorem c10_no_base_or_topology_check (env : CloudEnv)
    (mem : AuthorizationInfo) (topic payload first plant module : String)
    (req : SetStatusRequest)
    (ht : splitSlash topic = [first, plant, module, "set_status"])
    (hp : env.parseSetStatus payload = some req)
    (hr : (Context.refresh_token_if_needed env mem).ok = true)
    (ha : env.withAuthorizationOk
            (Context.refresh_token_if_needed env mem).auth_mem = true) :
    (try_update_plant_status env mem topic payload).calls
      = [⟨plant, module, req⟩] := by
  rw [try_update_calls_of_shape env mem topic payload first plant module ht hr ha, hp]

/-- Witness for C10 at a topic whose first segment is not the configured base
topic "smarther" and whose plant is not in any topology. -/
theorem c10_no_base_or_topology_check_witness :
    splitSlash "another-base/P9/M9/set_status"
        = ["another-base", "P9", "M9", "set_status"]
    ∧ env_mqtt.parseSetStatus "boost" = some ⟨"boost", "automatic", none, none⟩
    ∧ (Context.refresh_token_if_needed env_mqtt auth_old).ok = true
    ∧ env_mqtt.withAuthorizationOk
        (Context.refresh_token_if_needed env_mqtt auth_old).auth_mem = true
    ∧ (try_update_plant_status env_mqtt auth_old
        "another-base/P9/M9/set_status" "boost").calls
        = [⟨"P9", "M9", ⟨"boost", "automatic", none, none⟩⟩] :=
  ⟨rfl, rfl, rfl, rfl,
   c10_no_base_or_topology_check env_mqtt auth_old
     "another-base/P9/M9/set_status" "boost" "another-base" "P9" "M9"
     ⟨"boost", "automatic", none, none⟩ rfl rfl rfl rfl⟩

/-- C6: in the command loop, an inbound publish whose topic matches
base-plant-module-"set_status" and whose payload decodes issues exactly one
device-status call with the ids from the topic and the decoded payload, and
the loop keeps processing the surrounding events; a malformed payload issues
zero calls and the surrounding events are still processed identically. -/
theorem c6_one_call_per_wellformed_command (env : CloudEnv)
    (mem : AuthorizationInfo) (es₁ es₂ : List MqttPollResult)
    (topic payload b plant module : String)
    (hr : ∀ a, (Context.refresh_token_if_needed env a).ok = true)
    (ha : ∀ a, env.withAuthorizationOk a = true)
    (ht : splitSlash topic = [b, plant, module, "set_status"]) :
    (∀ req, env.parseSetStatus payload = some req →
      cmdCalls env mem (es₁ ++ MqttPollResult.publishEvent topic payload :: es₂)
        = cmdCalls env mem es₁ ++ ⟨plant, module, req⟩ :: cmdCalls env mem es₂)
    ∧ (env.parseSetStatus payload = none →
      cmdCalls env mem (es₁ ++ MqttPollResult.publishEvent topic payload :: es₂)
        = cmdCalls env mem es₁ ++ cmdCalls env mem es₂) := by
  have hstep : cmdCalls env (cmdMem env mem es₁)
      (MqttPollResult.publishEvent topic payload :: es₂)
      = (try_update_plant_status env (cmdMem env mem es₁) topic payload).calls
        ++ cmdCalls env
          (try_update_plant_status env (cmdMem env mem es₁) topic payload).mem
          es₂ := rfl
  have hmain :
      cmdCalls env mem (es₁ ++ MqttPollResult.publishEvent topic payload :: es₂)
        = cmdCalls env mem es₁
          ++ ((try_update_plant_status env (cmdMem env mem es₁) topic payload).calls
              ++ cmdCalls env mem es₂) := by
    rw [cmdCalls_append env es₁ (MqttPollResult.publishEvent topic payload :: es₂) mem,
      hstep,
      cmdCalls_mem_irrelevant env hr ha es₂
        (try_update_plant_status env (cmdMem env mem es₁) topic payload).mem mem]
  constructor
  · intro req hp
    have h := hmain
    rw [try_update_calls_of_shape env (cmdMem env mem es₁) topic payload b plant
      module ht (hr _) (ha _), hp] at h
    simpa using h
  · intro hp
    have h := hmain
    rw [try_update_calls_of_shape env (cmdMem env mem es₁) topic payload b plant
      module ht (hr _) (ha _), hp] at h
    simpa using h

/-- Witness for C6: a well-formed command between two other events yields one
call; a malformed one in the same position yields none. -/
theorem c6_one_call_per_wellformed_command_witness :
    splitSlash "smarther/P1/M1/set_status"
        = ["smarther", "P1", "M1", "set_status"]
    ∧ cmdCalls env_mqtt auth_old
        [MqttPollResult.pollError "lost",
         MqttPollResult.publishEvent "smarther/P1/M1/set_status" "boost",
         MqttPollResult.publishEvent "smarther/P1/M1/set_status" "garbage"]
        = [⟨"P1", "M1", ⟨"boost", "automatic", none, none⟩⟩] := by
  refine ⟨rfl, ?_⟩
  have h := (c6_one_call_per_wellformed_command env_mqtt auth_old
    [MqttPollResult.pollError "lost"]
    [MqttPollResult.publishEvent "smarther/P1/M1/set_status" "garbage"]
    "smarther/P1/M1/set_status" "boost" "smarther" "P1" "M1"
    (fun _ => rfl) (fun _ => rfl) rfl).1
    ⟨"boost", "automatic", none, none⟩ rfl
  have h2 : cmdCalls env_mqtt auth_old [MqttPollResult.pollError "lost"] = [] := rfl
  have h3 : cmdCalls env_mqtt auth_old
      [MqttPollResult.publishEvent "smarther/P1/M1/set_status" "garbage"] = [] := rfl
  rw [h2, h3] at h
  simpa using h

theorem refresh_fileWrites_only_auth (env : CloudEnv) (a : AuthorizationInfo) :
    ∀ w ∈ (refresh_token_if_needed env a).fileWrites,
      ∃ c, w = FileWrite.authFile c := by
  intro w hw
  unfold refresh_token_if_needed at hw
  split at hw
  · split at hw
    · simp at hw
    · split at hw
      · simp at hw
        exact ⟨a, hw⟩
      · simp at hw
  · simp at hw

theorem ctx_refresh_fileWrites_eq (env : CloudEnv) (mem : AuthorizationInfo) :
    (Context.refresh_token_if_needed env mem).fileWrites
      = (refresh_token_if_needed env mem).fileWrites := by
  simp only [Context.refresh_token_if_needed]
  cases hres : (refresh_token_if_needed env mem).result <;> simp [hres]

theorem ctx_refresh_fileWrites_only_auth (env : CloudEnv)
    (mem : AuthorizationInfo) :
    ∀ w ∈ (Context.refresh_token_if_needed env mem).fileWrites,
      ∃ c, w = FileWrite.authFile c := by
  rw [ctx_refresh_fileWrites_eq]
  exact refresh_fileWrites_only_auth env mem

theorem clear_actions_benign (env : CloudEnv) (mem : AuthorizationInfo)
    (active : Option (List SubscriptionInfo)) :
    ∀ a ∈ (clear_active_subscriptions env mem active).actions,
      benignAction a = true := by
  intro a ha
  have hrefresh : ∀ b ∈ (WebhookAction.refreshAttempt ::
      (Context.refresh_token_if_needed env mem).fileWrites.map
        WebhookAction.fileWriteAct),
      benignAction b = true := by
    intro b hb
    rcases List.mem_cons.mp hb with h | h
    · rw [h]; rfl
    · rcases List.mem_map.mp h with ⟨w, hw, rfl⟩
      rcases ctx_refresh_fileWrites_only_auth env mem w hw with ⟨c, rfl⟩
      rfl
  have hunreg : ∀ (subs : List SubscriptionInfo), ∀ b ∈ unregActions subs,
      benignAction b = true := by
    intro subs b hb
    rcases List.mem_filterMap.mp hb with ⟨s, _, hmap⟩
    rcases Option.map_eq_some'.mp hmap with ⟨p, _, rfl⟩
    rfl
  simp only [clear_active_subscriptions] at ha
  split at ha
  · exact hrefresh a ha
  · split at ha
    · exact hrefresh a ha
    · split at ha
      · rcases List.mem_append.mp ha with h | h
        · exact hrefresh a h
        · exact hunreg _ a h
      · split at ha
        · rcases List.mem_append.mp ha with h | h
          · exact hrefresh a h
          · rcases List.mem_cons.mp h with h' | h'
            · rw [h']; rfl
            · exact hunreg _ a h'
        · rcases List.mem_append.mp ha with h | h
          · exact hrefresh a h
          · rcases List.mem_cons.mp h with h' | h'
            · rw [h']; rfl
            · simp at h'

theorem register_all_actions_benign (env : CloudEnv) (endpoint : String)
    (plants : List String) (acc : List SubscriptionInfo) :
    ∀ a ∈ (register_all env endpoint acc plants).actions,
      benignAction a = true := by
  induction plants generalizing acc with
  | nil => intro a ha; simp [register_all] at ha
  | cons p rest ih =>
    intro a ha
    simp only [register_all] at ha
    split at ha <;>
    · rcases List.mem_cons.mp ha with h | h
      · rw [h]; rfl
      · exact ih _ a h

theorem handle_subscriptions_trace_benign (env : CloudEnv)
    (mem : AuthorizationInfo) (plants : List String) (endpoint : String) :
    ∀ a ∈ (handle_subscriptions env mem plants endpoint).trace,
      benignAction a = true := by
  intro a ha
  have hrefresh : ∀ m, ∀ b ∈ (WebhookAction.refreshAttempt ::
      (Context.refresh_token_if_needed env m).fileWrites.map
        WebhookAction.fileWriteAct),
      benignAction b = true := by
    intro m b hb
    rcases List.mem_cons.mp hb with h | h
    · rw [h]; rfl
    · rcases List.mem_map.mp h with ⟨w, hw, rfl⟩
      rcases ctx_refresh_fileWrites_only_auth env m w hw with ⟨c, rfl⟩
      rfl
  simp only [SubsRun.trace, handle_subscriptions] at ha
  split at ha
  · simp only [List.append_nil] at ha
    rcases List.mem_append.mp ha with h | h
    · exact clear_actions_benign env mem none a h
    · exact hrefresh _ a h
  · split at ha
    · simp only [List.append_nil] at ha
      rcases List.mem_append.mp ha with h | h
      · exact clear_actions_benign env mem none a h
      · exact hrefresh _ a h
    · split at ha
      · simp only [List.append_nil] at ha
        rcases List.mem_append.mp ha with h | h
        · rcases List.mem_append.mp h with h' | h'
          · exact clear_actions_benign env mem none a h'
          · exact hrefresh _ a h'
        · exact register_all_actions_benign env endpoint plants _ a h
      · rcases List.mem_append.mp ha with h | h
        · rcases List.mem_append.mp h with h' | h'
          · rcases List.mem_append.mp h' with h'' | h''
            · exact clear_actions_benign env mem none a h''
            · exact hrefresh _ a h''
          · exact register_all_actions_benign env endpoint plants _ a h'
        · exact clear_actions_benign env _ _ a h

theorem benign_not_subsWrite (a : WebhookAction)
    (h : benignAction a = true) : writesSubsFile a = false := by
  cases a with
  | refreshAttempt => rfl
  | fileWriteAct w =>
    cases w with
    | authFile c => rfl
    | subscriptionsFile s => simp [benignAction] at h
  | getWebhooksCall => rfl
  | registerCall p u => rfl
  | unregisterCall p s => rfl
  | cancelTokenCall => simp [benignAction] at h

theorem register_all_active (env : CloudEnv) (endpoint : String)
    (plants : List String) (acc : List SubscriptionInfo) :
    (register_all env endpoint acc plants).active
      = acc ++ registeredSubs env endpoint plants := by
  induction plants generalizing acc with
  | nil => simp [register_all, registeredSubs]
  | cons p rest ih =>
    simp only [register_all, registeredSubs, List.filterMap_cons]
    cases hreg : env.registerWebhook p (endpoint ++ "/smarther_bridge/" ++ p) with
    | none => simpa [hreg, registeredSubs] using ih acc
    | some s =>
      simp only [hreg, Option.map_some']
      rw [ih]
      simp [registeredSubs]

theorem registeredSubs_plant_id_isSome (env : CloudEnv) (endpoint : String)
    (plants : List String) :
    ∀ s ∈ registeredSubs env endpoint plants, s.plant_id.isSome = true := by
  intro s hs
  simp only [registeredSubs] at hs
  rcases List.mem_filterMap.mp hs with ⟨p, _, hmap⟩
  rcases Option.map_eq_some'.mp hmap with ⟨s0, _, rfl⟩
  rfl

theorem unregActions_length (subs : List SubscriptionInfo)
    (h : ∀ s ∈ subs, s.plant_id.isSome = true) :
    (unregActions subs).length = subs.length := by
  induction subs with
  | nil => rfl
  | cons s rest ih =>
    have hs := h s (List.mem_cons_self s rest)
    cases hps : s.plant_id with
    | none => rw [hps] at hs; simp at hs
    | some p =>
      simp only [unregActions, List.filterMap_cons, hps, Option.map_some',
        List.length_cons]
      have := ih (fun x hx => h x (List.mem_cons_of_mem s hx))
      simp only [unregActions] at this
      rw [this]

theorem filter_isUnregCall_refreshActs (ws : List FileWrite) :
    ((WebhookAction.refreshAttempt ::
        ws.map WebhookAction.fileWriteAct).filter isUnregCall) = [] := by
  induction ws with
  | nil => rfl
  | cons w rest ih =>
    simp only [List.map_cons, List.filter_cons] at ih ⊢
    simp [isUnregCall]

theorem filter_isUnregCall_unregActions (subs : List SubscriptionInfo) :
    (unregActions subs).filter isUnregCall = unregActions subs := by
  induction subs with
  | nil => rfl
  | cons s rest ih =>
    cases hps : s.plant_id with
    | none => simpa [unregActions, List.filterMap_cons, hps] using ih
    | some p =>
      simp only [unregActions, List.filterMap_cons, hps, Option.map_some',
        List.filter_cons, isUnregCall]
      simp only [unregActions] at ih
      simp [ih]

theorem clear_some_actions (env : CloudEnv) (mem : AuthorizationInfo)
    (subs : List SubscriptionInfo)
    (hr : (Context.refresh_token_if_needed env mem).ok = true)
    (ha : ∀ a, env.withAuthorizationOk a = true) :
    (clear_active_subscriptions env mem (some subs)).actions
      = (WebhookAction.refreshAttempt ::
          (Context.refresh_token_if_needed env mem).fileWrites.map
            WebhookAction.fileWriteAct) ++ unregActions subs := by
  simp [clear_active_subscriptions, hr, ha]

theorem handle_subscriptions_completed_of (env : CloudEnv)
    (mem : AuthorizationInfo) (plants : List String) (endpoint : String)
    (hr : ∀ a, (Context.refresh_token_if_needed env a).ok = true)
    (ha : ∀ a, env.withAuthorizationOk a = true)
    (hne : (register_all env endpoint
        (clear_active_subscriptions env mem none).remaining plants).active
        ≠ []) :
    (handle_subscriptions env mem plants endpoint).result
      = SubsResult.completed
          (register_all env endpoint
            (clear_active_subscriptions env mem none).remaining plants).active
          (clear_active_subscriptions env
            (Context.refresh_token_if_needed env
              (clear_active_subscriptions env mem none).mem).auth_mem
            (some (register_all env endpoint
              (clear_active_subscriptions env mem none).remaining
              plants).active)).remaining
    ∧ (handle_subscriptions env mem plants endpoint).postActions
      = (clear_active_subscriptions env
          (Context.refresh_token_if_needed env
            (clear_active_subscriptions env mem none).mem).auth_mem
          (some (register_all env endpoint
            (clear_active_subscriptions env mem none).remaining
            plants).active)).actions := by
  constructor <;>
    simp [handle_subscriptions, hr, ha, List.isEmpty_iff, hne]

theorem handle_subscriptions_postActions_nil (env : CloudEnv)
    (mem : AuthorizationInfo) (plants : List String) (endpoint : String)
    (h : (handle_subscriptions env mem plants endpoint).result
      = SubsResult.noSubscriptions) :
    (handle_subscriptions env mem plants endpoint).postActions = [] := by
  by_cases h1 : (Context.refresh_token_if_needed env
      (clear_active_subscriptions env mem none).mem).ok = false
  · simp [handle_subscriptions, h1]
  · by_cases h2 : env.withAuthorizationOk (Context.refresh_token_if_needed env
        (clear_active_subscriptions env mem none).mem).auth_mem = false
    · simp [handle_subscriptions, h1, h2]
    · by_cases h3 : (register_all env endpoint
          (clear_active_subscriptions env mem none).remaining
          plants).active.isEmpty
      · simp [handle_subscriptions, h1, h2, h3]
      · exfalso
        simp [handle_subscriptions, h1, h2, h3] at h

theorem cancel_not_in_subscriptions_trace (env : CloudEnv)
    (mem : AuthorizationInfo) (plants : List String) (endpoint : String) :
    WebhookAction.cancelTokenCall
      ∉ (handle_subscriptions env mem plants endpoint).trace := by
  intro hmem
  have := handle_subscriptions_trace_benign env mem plants endpoint _ hmem
  simp [benignAction] at this

/-- C3 counterexample: an environment in which every registration fails, so
zero subscriptions end up active — the subscription manager reports failure
(`noSubscriptions`), yet it never fires the cancellation token, and the HTTP
listener of the same webhook subsystem (bound successfully, cancellation not
fired) is still in the `running` state, contradicting the claim that no
component of the webhook subsystem keeps running. -/
theorem c3_cex_listener_still_running :
    (handle_subscriptions env_fresh auth_old ["P1"] "https://bridge.example").result
      = SubsResult.noSubscriptions
    ∧ ((handle_subscriptions env_fresh auth_old ["P1"]
        "https://bridge.example").trace.filter isCancelAction) = []
    ∧ http_server_status true false = ServerStatus.running := by
  exact ⟨rfl, rfl, rfl⟩

/-- C3 amended: if the registration pass ends with zero active subscriptions,
the subscription manager reports failure and performs no further subscription
work — no wait for cancellation, no unregistration pass — but it does not
stop the HTTP listener: the subscription path never fires the cancellation
token, so the listener keeps running until the global cancellation signal. -/
theorem c3_amended_no_further_subscription_work (env : CloudEnv)
    (mem : AuthorizationInfo) (plants : List String) (endpoint : String)
    (h : (handle_subscriptions env mem plants endpoint).result
      = SubsResult.noSubscriptions) :
    (handle_subscriptions env mem plants endpoint).postActions = []
    ∧ (handle_subscriptions env mem plants endpoint).unregCount = 0
    ∧ WebhookAction.cancelTokenCall
        ∉ (handle_subscriptions env mem plants endpoint).trace
    ∧ http_server_status true false = ServerStatus.running := by
  have hpost := handle_subscriptions_postActions_nil env mem plants endpoint h
  refine ⟨hpost, ?_, cancel_not_in_subscriptions_trace env mem plants endpoint,
    rfl⟩
  rw [SubsRun.unregCount, hpost]
  rfl

/-- Witness for the amended C3 in the all-registrations-fail environment. -/
theorem c3_amended_no_further_subscription_work_witness :
    (handle_subscriptions env_fresh auth_old ["P1"] "https://bridge.example").result
      = SubsResult.noSubscriptions
    ∧ ((handle_subscriptions env_fresh auth_old ["P1"]
          "https://bridge.example").postActions = []
      ∧ (handle_subscriptions env_fresh auth_old ["P1"]
          "https://bridge.example").unregCount = 0
      ∧ WebhookAction.cancelTokenCall
          ∉ (handle_subscriptions env_fresh auth_old ["P1"]
              "https://bridge.example").trace
      ∧ http_server_status true false = ServerStatus.running) :=
  ⟨rfl, c3_amended_no_further_subscription_work env_fresh auth_old ["P1"]
    "https://bridge.example" rfl⟩

/-- C4 counterexample: a run in which the active subscription set becomes
non-empty (one subscription) and durable writes do happen (the token refresh
writes the auth snapshot), yet the trace contains no write of a
subscriptions snapshot — the subscription set is never persisted. -/
theorem c4_cex_no_snapshot_written :
    (handle_subscriptions env_c4 auth_old ["P1"] "https://bridge.example").activeCount = 1
    ∧ ((handle_subscriptions env_c4 auth_old ["P1"]
        "https://bridge.example").trace.filter writesSubsFile) = []
    ∧ ((handle_subscriptions env_c4 auth_old ["P1"]
        "https://bridge.example").trace.filter writesAuthFile) ≠ [] := by
  refine ⟨rfl, rfl, ?_⟩
  decide

/-- C4 amended: the webhook subsystem never persists the active subscription
set — no subscriptions-snapshot write occurs anywhere in a
`handle_subscriptions` run, whatever the environment, the managed plants or
the registration outcomes (`run` receives a subscriptions-file path from
main but never uses it; duplicate registrations after a restart are avoided
by clearing all cloud-reported webhooks at startup instead). -/
theorem c4_amended_subscription_set_never_persisted (env : CloudEnv)
    (mem : AuthorizationInfo) (plants : List String) (endpoint : String) :
    ((handle_subscriptions env mem plants endpoint).trace.filter
        writesSubsFile) = [] := by
  rw [List.filter_eq_nil_iff]
  intro a ha
  have hb := handle_subscriptions_trace_benign env mem plants endpoint a ha
  simp [benign_not_subsWrite a hb]

/-- Witness for the amended C4 at a concrete run with a non-empty active
set. -/
theorem c4_amended_subscription_set_never_persisted_witness :
    ((handle_subscriptions env_c4 auth_old ["P1"]
        "https://bridge.example").trace.filter writesSubsFile) = [] :=
  c4_amended_subscription_set_never_persisted env_c4 auth_old ["P1"]
    "https://bridge.example"

/-- C5 counterexample: one managed plant, its registration succeeds, so K is
one — but the startup clearing pass left a pre-existing subscription in the
active set, so the resulting active set has two subscriptions and
cancellation issues two unregistration calls, not K. -/
theorem c5_cex_seeded_active_set :
    c5K env_c5x "https://bridge.example" ["P1"] = 1
    ∧ (handle_subscriptions env_c5x auth_old ["P1"]
        "https://bridge.example").activeCount = 2
    ∧ (handle_subscriptions env_c5x auth_old ["P1"]
        "https://bridge.example").unregCount = 2 := by
  exact ⟨rfl, rfl, rfl⟩

/-- C5 amended: provided the startup clearing pass leaves no remaining
subscriptions (so the active set starts empty), a run over N managed plants
in which registration succeeds for K plants and fails for the rest, with
K positive, reaches the completed phase with an active set of exactly K
subscriptions, and the unregistration pass after cancellation issues exactly
K unregistration calls, one per active subscription. -/
theorem c5_amended_counts (env : CloudEnv) (mem : AuthorizationInfo)
    (plants : List String) (endpoint : String)
    (hr : ∀ a, (Context.refresh_token_if_needed env a).ok = true)
    (ha : ∀ a, env.withAuthorizationOk a = true)
    (hinit : (clear_active_subscriptions env mem none).remaining = [])
    (hk : 0 < c5K env endpoint plants) :
    (handle_subscriptions env mem plants endpoint).isCompleted = true
    ∧ (handle_subscriptions env mem plants endpoint).activeCount
        = c5K env endpoint plants
    ∧ (handle_subscriptions env mem plants endpoint).unregCount
        = c5K env endpoint plants := by
  have hact : (register_all env endpoint
      (clear_active_subscriptions env mem none).remaining plants).active
      = registeredSubs env endpoint plants := by
    rw [hinit, register_all_active]
    simp
  have hne : (register_all env endpoint
      (clear_active_subscriptions env mem none).remaining plants).active
      ≠ [] := by
    rw [hact]
    intro hnil
    rw [c5K, hnil] at hk
    simp at hk
  obtain ⟨hres, hpost⟩ :=
    handle_subscriptions_completed_of env mem plants endpoint hr ha hne
  refine ⟨?_, ?_, ?_⟩
  · simp [SubsRun.isCompleted, hres]
  · simp [SubsRun.activeCount, hres, hact, c5K]
  · rw [SubsRun.unregCount, hpost, clear_some_actions env _ _ (hr _) ha,
      List.filter_append, filter_isUnregCall_refreshActs,
      filter_isUnregCall_unregActions, List.nil_append, hact,
      unregActions_length (registeredSubs env endpoint plants)
        (registeredSubs_plant_id_isSome env endpoint plants)]
    rfl

/-- Witness for the amended C5 with one plant and a clean startup clearing
pass. -/
theorem c5_amended_counts_witness :
    (clear_active_subscriptions env_c5w auth_old none).remaining = []
    ∧ 0 < c5K env_c5w "https://bridge.example" ["P1"]
    ∧ ((handle_subscriptions env_c5w auth_old ["P1"]
          "https://bridge.example").isCompleted = true
      ∧ (handle_subscriptions env_c5w auth_old ["P1"]
          "https://bridge.example").activeCount
          = c5K env_c5w "https://bridge.example" ["P1"]
      ∧ (handle_subscriptions env_c5w auth_old ["P1"]
          "https://bridge.example").unregCount
          = c5K env_c5w "https://bridge.example" ["P1"]) :=
  ⟨rfl, by decide,
   c5_amended_counts env_c5w auth_old ["P1"] "https://bridge.example"
     (fun _ => rfl) (fun _ => rfl) rfl (by decide)⟩

theorem length_bind_of_forall_singleton {α β : Type} (l : List α)
    (f : α → List β) (h : ∀ a ∈ l, (f a).length = 1) :
    (l.flatMap f).length = l.length := by
  induction l with
  | nil => rfl
  | cons a rest ih =>
    rw [List.flatMap_cons, List.length_append, h a (List.mem_cons_self a rest),
      ih (fun x hx => h x (List.mem_cons_of_mem a hx))]
    simp [Nat.add_comm]

/-- C9: the ingress handler responds successfully (a 200 with a short text
body) and forwards nothing when the path plant id is not among the managed
plants; and when the plant is managed but the channel send fails, it logs the
failure and still responds successfully to the caller. -/
theorem c9_ingress_contract (active_plants : List String) (plant_id : String)
    (payload : ModuleStatus) (sendOk : Bool) :
    (active_plants.any (fun sub => sub == plant_id) = false →
      process active_plants plant_id payload sendOk
        = ⟨200, "Plant not active", [], false⟩)
    ∧ (active_plants.any (fun sub => sub == plant_id) = true →
        sendOk = false →
      (process active_plants plant_id payload sendOk).status = 200
      ∧ (process active_plants plant_id payload sendOk).body = "OK"
      ∧ (process active_plants plant_id payload sendOk).forwarded = []
      ∧ (process active_plants plant_id payload sendOk).loggedSendFailure
          = true) := by
  constructor
  · intro h
    simp [process, h]
  · intro h hs
    subst hs
    simp [process, h]

/-- Witness for C9: an unmanaged plant is discarded with a 200, and a managed
plant with a dead channel is logged and still answered with a 200. -/
theorem c9_ingress_contract_witness :
    ["P1"].any (fun sub => sub == "P2") = false
    ∧ process ["P1"] "P2" ⟨[]⟩ true = ⟨200, "Plant not active", [], false⟩
    ∧ (process ["P1"] "P1" ⟨[]⟩ false).loggedSendFailure = true
    ∧ (process ["P1"] "P1" ⟨[]⟩ false).status = 200 :=
  ⟨rfl, (c9_ingress_contract ["P1"] "P2" ⟨[]⟩ true).1 rfl,
   ((c9_ingress_contract ["P1"] "P1" ⟨[]⟩ false).2 rfl rfl).2.2.2,
   ((c9_ingress_contract ["P1"] "P1" ⟨[]⟩ false).2 rfl rfl).1⟩

/-- C7: a status event delivered for a managed plant id, each of whose
carried statuses identifies that plant in its sender block, produces exactly
one MQTT publish per carried thermostat status, each to
base-topic/plant-id/module-id/"status"; the same event delivered for an
unmanaged plant id produces zero publishes. -/
theorem c7_publish_per_status (active_plants : List String)
    (base_topic plant_id : String) (payload : ModuleStatus) :
    (active_plants.any (fun sub => sub == plant_id) = true →
      (∀ s ∈ payload.chronothermostats, ∃ m : ModuleRef,
        s.sender = some ⟨some ⟨plant_id, m⟩⟩) →
      (deliver_status_event active_plants base_topic plant_id payload
          true).length = payload.chronothermostats.length
      ∧ ∀ rec ∈ deliver_status_event active_plants base_topic plant_id
            payload true,
          ∃ m : ModuleRef, rec.topic
            = base_topic ++ "/" ++ plant_id ++ "/" ++ m.id ++ "/status")
    ∧ (active_plants.any (fun sub => sub == plant_id) = false →
      deliver_status_event active_plants base_topic plant_id payload true
        = []) := by
  constructor
  · intro hact hwf
    have hsingle : ∀ s ∈ payload.chronothermostats, ∃ m : ModuleRef,
        (try_parse_and_publish_status base_topic s).published
          = [⟨base_topic ++ "/" ++ plant_id ++ "/" ++ m.id ++ "/status",
              summaryOf s⟩] := by
      intro s hs
      obtain ⟨m, hm⟩ := hwf s hs
      exact ⟨m, by simp [try_parse_and_publish_status, hm]⟩
    have hdel : deliver_status_event active_plants base_topic plant_id payload
        true = payload.chronothermostats.flatMap
          (fun s => (try_parse_and_publish_status base_topic s).published) := by
      simp [deliver_status_event, process, hact, mqtt_status_change_handler]
    constructor
    · rw [hdel]
      refine length_bind_of_forall_singleton payload.chronothermostats _
        (fun s hs => ?_)
      obtain ⟨m, hm⟩ := hsingle s hs
      rw [hm]
      rfl
    · intro rec hrec
      rw [hdel] at hrec
      rcases List.mem_flatMap.mp hrec with ⟨s, hs, hin⟩
      rcases hsingle s hs with ⟨m, hm⟩
      rw [hm] at hin
      rcases List.mem_singleton.mp hin with rfl
      exact ⟨m, rfl⟩
  · intro hact
    simp [deliver_status_event, process, hact, mqtt_status_change_handler]

/-- Witness for C7: the managed plant "plantA" gets exactly one publish for
its one-status event, and the same event for the unmanaged id "plantB" gets
none. -/
theorem c7_publish_per_status_witness :
    ["plantA"].any (fun sub => sub == "plantA") = true
    ∧ (deliver_status_event ["plantA"] "smarther" "plantA" status_event_a
        true).length = status_event_a.chronothermostats.length
    ∧ (∀ rec ∈ deliver_status_event ["plantA"] "smarther" "plantA"
          status_event_a true,
        ∃ m : ModuleRef, rec.topic
          = "smarther" ++ "/" ++ "plantA" ++ "/" ++ m.id ++ "/status")
    ∧ deliver_status_event ["plantA"] "smarther" "plantB" status_event_a true
        = [] := by
  have hwfA : ∀ s ∈ status_event_a.chronothermostats, ∃ m : ModuleRef,
      s.sender = some ⟨some ⟨"plantA", m⟩⟩ := by
    intro s hs
    rw [List.mem_singleton.mp hs]
    exact ⟨⟨"modA"⟩, rfl⟩
  exact ⟨rfl,
    ((c7_publish_per_status ["plantA"] "smarther" "plantA" status_event_a).1
      rfl hwfA).1,
    ((c7_publish_per_status ["plantA"] "smarther" "plantA" status_event_a).1
      rfl hwfA).2,
    (c7_publish_per_status ["plantA"] "smarther" "plantB" status_event_a).2 rfl⟩

end SmartherBridge
